import Mathlib

/-!
# SMTP client configuration (`config.go`)

A shallow embedding of the `gomail` configuration package: the `Config`
record, the constructor `NewConfig` with its functional options, the ten
`With*` setters and the credential check `Validate`.

Modelling choices.

* Go `string` fields are Lean `String`s. The package only stores strings and
  compares them with the empty string.
* Go `int` and `time.Duration` (an `int64` count of nanoseconds) are `Int`.
  The package performs no arithmetic on them apart from the constant
  `30 * time.Second`, which is far from any overflow.
* A Go `error` is `Option String`: `none` is `nil`, and `some msg` is the value
  built by `errors.New(msg)`, whose `Error()` text is `msg`.
* `*Config` is passed around as a record value: an option `func(*Config)`
  that mutates the record in place is a function `Config → Config`, and the
  loop of `NewConfig` threads the record through the options.
-/

namespace gomail

/-- A Go `error` value: `none` for `nil`, `some msg` for an error whose
message is `msg`. -/
abbrev Error := Option String

/-- The standard library's `errors.New`: an error carrying exactly `text`. -/
def errors.New (text : String) : Error := some text

/-- The standard library's `time.Nanosecond`, the unit of `time.Duration`. -/
def time.Nanosecond : Int := 1

/-- The standard library's `time.Microsecond`. -/
def time.Microsecond : Int := 1000 * time.Nanosecond

/-- The standard library's `time.Millisecond`. -/
def time.Millisecond : Int := 1000 * time.Microsecond

/-- The standard library's `time.Second`. -/
def time.Second : Int := 1000 * time.Millisecond

/-- The `Config` struct of `config.go`, field for field. -/
structure Config where
  Host : String
  Port : Int
  Username : String
  Password : String
  From : String
  FromName : String
  InsecureSkipVerify : Bool
  Timeout : Int
  KeepAlive : Bool
  AuthMethod : String
  deriving DecidableEq, Repr

/-- The composite literal at the top of `NewConfig`: four fields are given,
the six others take Go's zero value. -/
def defaultConfig : Config :=
  { Host := "smtp.gmail.com"
    Port := 587
    Username := ""
    Password := ""
    From := ""
    FromName := ""
    InsecureSkipVerify := false
    Timeout := 30 * time.Second
    KeepAlive := false
    AuthMethod := "PLAIN" }

/-- The loop `for _, option := range options { option(cfg) }`: each option
is run on the record left by the previous one, in slice order. -/
def applyOptions (cfg : Config) : List (Config → Config) → Config
  | [] => cfg
  | option :: rest => applyOptions (option cfg) rest

/-- The constructor `NewConfig(options ...func(*Config)) (*Config, error)`. -/
def NewConfig (options : List (Config → Config)) : Config × Error :=
  let cfg := defaultConfig
  let cfg := applyOptions cfg options
  (cfg, none)

/-- The setter `WithHost`. -/
def WithHost (host : String) : Config → Config :=
  fun cfg => { cfg with Host := host }

/-- The setter `WithPort`. -/
def WithPort (port : Int) : Config → Config :=
  fun cfg => { cfg with Port := port }

/-- The setter `WithUsername`. -/
def WithUsername (username : String) : Config → Config :=
  fun cfg => { cfg with Username := username }

/-- The setter `WithPassword`. -/
def WithPassword (password : String) : Config → Config :=
  fun cfg => { cfg with Password := password }

/-- The setter `WithFrom`. -/
def WithFrom (sender : String) : Config → Config :=
  fun cfg => { cfg with From := sender }

/-- The setter `WithFromName`. -/
def WithFromName (fromName : String) : Config → Config :=
  fun cfg => { cfg with FromName := fromName }

/-- The setter `WithInsecureSkipVerify`. -/
def WithInsecureSkipVerify (insecureSkipVerify : Bool) : Config → Config :=
  fun cfg => { cfg with InsecureSkipVerify := insecureSkipVerify }

/-- The setter `WithTimeout`. -/
def WithTimeout (timeout : Int) : Config → Config :=
  fun cfg => { cfg with Timeout := timeout }

/-- The setter `WithKeepAlive`. -/
def WithKeepAlive (keepAlive : Bool) : Config → Config :=
  fun cfg => { cfg with KeepAlive := keepAlive }

/-- The setter `WithAuthMethod`. -/
def WithAuthMethod (authMethod : String) : Config → Config :=
  fun cfg => { cfg with AuthMethod := authMethod }

/-- The method `(c *Config) Validate() error`: the username is tested first,
then the password. -/
def Validate (c : Config) : Error :=
  if c.Username = "" then
    errors.New "username is empty"
  else if c.Password = "" then
    errors.New "password is empty"
  else
    none

/-! ## Option lists built from the ten setters

To speak of "the last option in the list that targets a field", an option
list built from the setters is described by a list of `Setter` tags; the
function list handed to `NewConfig` is its image under `Setter.toOption`. -/

/-- One call of a `With*` setter: which setter, and its argument. -/
inductive Setter where
  | host (v : String)
  | port (v : Int)
  | username (v : String)
  | password (v : String)
  | sender (v : String)
  | fromName (v : String)
  | insecureSkipVerify (v : Bool)
  | timeout (v : Int)
  | keepAlive (v : Bool)
  | authMethod (v : String)
  deriving DecidableEq, Repr

/-- The option function a setter call evaluates to. -/
def Setter.toOption : Setter → (Config → Config)
  | .host v => WithHost v
  | .port v => WithPort v
  | .username v => WithUsername v
  | .password v => WithPassword v
  | .sender v => WithFrom v
  | .fromName v => WithFromName v
  | .insecureSkipVerify v => WithInsecureSkipVerify v
  | .timeout v => WithTimeout v
  | .keepAlive v => WithKeepAlive v
  | .authMethod v => WithAuthMethod v

/-- The argument of a setter call when it is a `WithHost`. -/
def Setter.hostArg : Setter → Option String
  | .host v => some v
  | _ => none

/-- The argument of a setter call when it is a `WithPort`. -/
def Setter.portArg : Setter → Option Int
  | .port v => some v
  | _ => none

/-- The argument of a setter call when it is a `WithUsername`. -/
def Setter.usernameArg : Setter → Option String
  | .username v => some v
  | _ => none

/-- The argument of a setter call when it is a `WithPassword`. -/
def Setter.passwordArg : Setter → Option String
  | .password v => some v
  | _ => none

/-- The argument of a setter call when it is a `WithFrom`. -/
def Setter.senderArg : Setter → Option String
  | .sender v => some v
  | _ => none

/-- The argument of a setter call when it is a `WithFromName`. -/
def Setter.fromNameArg : Setter → Option String
  | .fromName v => some v
  | _ => none

/-- The argument of a setter call when it is a `WithInsecureSkipVerify`. -/
def Setter.insecureSkipVerifyArg : Setter → Option Bool
  | .insecureSkipVerify v => some v
  | _ => none

/-- The argument of a setter call when it is a `WithTimeout`. -/
def Setter.timeoutArg : Setter → Option Int
  | .timeout v => some v
  | _ => none

/-- The argument of a setter call when it is a `WithKeepAlive`. -/
def Setter.keepAliveArg : Setter → Option Bool
  | .keepAlive v => some v
  | _ => none

/-- The argument of a setter call when it is a `WithAuthMethod`. -/
def Setter.authMethodArg : Setter → Option String
  | .authMethod v => some v
  | _ => none

/-- The argument of the last call in `l` that targets the field selected by
`sel`, or `none` when no call in `l` targets it: the arguments of the calls
that target the field are collected in list order and the last is taken. -/
def lastArg {α : Type} (sel : Setter → Option α) (l : List Setter) : Option α :=
  (l.filterMap sel).getLast?

/-- The specification's reading of construction: the options are applied one
after another, first to last, starting from the defaults. -/
def foldOptions (options : List (Config → Config)) : Config :=
  List.foldl (fun cfg option => option cfg) defaultConfig options

/-- The ten fields of `Config`, as targets of the setters. -/
inductive Field where
  | Host
  | Port
  | Username
  | Password
  | From
  | FromName
  | InsecureSkipVerify
  | Timeout
  | KeepAlive
  | AuthMethod
  deriving DecidableEq, Repr

/-- The field a setter call assigns to. -/
def Setter.target : Setter → Field
  | .host _ => Field.Host
  | .port _ => Field.Port
  | .username _ => Field.Username
  | .password _ => Field.Password
  | .sender _ => Field.From
  | .fromName _ => Field.FromName
  | .insecureSkipVerify _ => Field.InsecureSkipVerify
  | .timeout _ => Field.Timeout
  | .keepAlive _ => Field.KeepAlive
  | .authMethod _ => Field.AuthMethod

/-! ## Validate as a call through the pointer receiver -/

/-- One call `err := c.Validate()` as a step on the record behind the pointer
receiver `c`: the record after the call, and the error returned. The body of
`Validate` only reads `c.Username` and `c.Password` and assigns nothing
through `c`, so the record after the call is the record before it. -/
def Validate.call (c : Config) : Config × Error :=
  (c, Validate c)

/-- The record left and the errors returned, in call order, by `n` calls of
`Validate` in a row through the same pointer. -/
def Validate.calls : Nat → Config → Config × List Error
  | 0, c => (c, [])
  | n + 1, c =>
    let r := Validate.call c
    let rest := Validate.calls n r.1
    (rest.1, r.2 :: rest.2)

/-! ## Validate -/

/-- C1: a record whose Username is empty is rejected with the message
"username is empty", whatever its Password; so the result is never the
password message, and in particular not when both credentials are empty. -/
theorem Validate_username_empty (c : Config) (h : c.Username = "") :
    Validate c = some "username is empty" ∧
    Validate c ≠ some "password is empty" ∧
    (c.Password = "" → Validate c = some "username is empty") := by
  have hv : Validate c = some "username is empty" := by
    simp [Validate, errors.New, h]
  refine ⟨hv, ?_, fun _ => hv⟩
  rw [hv]
  decide

/-- A record with both credentials empty, as in the test case "Missing both
username and password". -/
theorem Validate_username_empty_witness :
    (Config.mk "" 0 "" "" "" "" false 0 false "").Username = "" ∧
    Validate (Config.mk "" 0 "" "" "" "" false 0 false "") = some "username is empty" ∧
    Validate (Config.mk "" 0 "" "" "" "" false 0 false "") ≠ some "password is empty" ∧
    ((Config.mk "" 0 "" "" "" "" false 0 false "").Password = "" →
      Validate (Config.mk "" 0 "" "" "" "" false 0 false "") = some "username is empty") :=
  ⟨rfl, Validate_username_empty (Config.mk "" 0 "" "" "" "" false 0 false "") rfl⟩

/-- C2: a record with a non-empty Username and an empty Password is rejected
with the message "password is empty". -/
theorem Validate_password_empty (c : Config) (hu : c.Username ≠ "")
    (hp : c.Password = "") : Validate c = some "password is empty" := by
  simp [Validate, errors.New, hu, hp]

/-- The test case "Missing password": only the Username is set. -/
theorem Validate_password_empty_witness :
    (Config.mk "" 0 "user" "" "" "" false 0 false "").Username ≠ "" ∧
    (Config.mk "" 0 "user" "" "" "" false 0 false "").Password = "" ∧
    Validate (Config.mk "" 0 "user" "" "" "" false 0 false "") = some "password is empty" :=
  ⟨by decide, rfl,
    Validate_password_empty (Config.mk "" 0 "user" "" "" "" false 0 false "") (by decide) rfl⟩

/-- C3: a record whose Username and Password are both non-empty passes
Validate, whatever its eight other fields hold. -/
theorem Validate_ok (host : String) (port : Int) (username password sender fromName : String)
    (insecureSkipVerify : Bool) (timeout : Int) (keepAlive : Bool) (authMethod : String)
    (hu : username ≠ "") (hp : password ≠ "") :
    Validate (Config.mk host port username password sender fromName insecureSkipVerify
      timeout keepAlive authMethod) = none := by
  simp [Validate, hu, hp]

/-- A record with an empty Host, a negative Port, a negative Timeout and an
unknown AuthMethod still passes. -/
theorem Validate_ok_witness :
    "user" ≠ "" ∧ "password" ≠ "" ∧
    Validate (Config.mk "" (-1) "user" "password" "" "" true (-5) true "NO-SUCH-METHOD") = none :=
  ⟨by decide, by decide,
    Validate_ok "" (-1) "user" "password" "" "" true (-5) true "NO-SUCH-METHOD"
      (by decide) (by decide)⟩

/-! ## NewConfig -/

/-- C4: with no option, NewConfig returns the defaults: Host "smtp.gmail.com",
Port 587, Timeout 30 s = 30,000,000,000 ns, AuthMethod "PLAIN", and the zero
value in the six other fields. -/
theorem NewConfig_no_options :
    (NewConfig []).1 =
      Config.mk "smtp.gmail.com" 587 "" "" "" "" false 30000000000 false "PLAIN" := by
  decide

/-- The loop of `NewConfig` is a left fold of function application. -/
theorem applyOptions_eq_foldl (options : List (Config → Config)) (cfg : Config) :
    applyOptions cfg options = List.foldl (fun c option => option c) cfg options := by
  induction options generalizing cfg with
  | nil => rfl
  | cons option rest ih => simp [applyOptions, ih]

/-- Taking the last argument after one more leading call. -/
theorem lastArg_cons {α : Type} (sel : Setter → Option α) (o : Setter) (l : List Setter)
    (d : α) : (lastArg sel (o :: l)).getD d = (lastArg sel l).getD ((sel o).getD d) := by
  unfold lastArg
  cases h : sel o with
  | none => simp [List.filterMap_cons, h]
  | some v => simp [List.filterMap_cons, h, List.getLast?_cons]

/-- A field that every setter call either overwrites with its argument or
leaves alone ends up holding the last argument aimed at it, or what it held
before the loop. -/
theorem applyOptions_field {α : Type} (proj : Config → α) (sel : Setter → Option α)
    (h : ∀ o cfg, proj (Setter.toOption o cfg) = (sel o).getD (proj cfg))
    (l : List Setter) (cfg : Config) :
    proj (applyOptions cfg (l.map Setter.toOption)) = (lastArg sel l).getD (proj cfg) := by
  induction l generalizing cfg with
  | nil => simp [applyOptions, lastArg]
  | cons o rest ih =>
    rw [lastArg_cons, ← h o cfg]
    simpa [applyOptions] using ih (Setter.toOption o cfg)

/-- C5: for every list of setter calls, each field of the record NewConfig
returns holds the argument of the last call in the list that targets the
field, and the field's default when no call targets it. -/
theorem NewConfig_last_wins (l : List Setter) :
    (NewConfig (l.map Setter.toOption)).1.Host
      = (lastArg Setter.hostArg l).getD "smtp.gmail.com" ∧
    (NewConfig (l.map Setter.toOption)).1.Port
      = (lastArg Setter.portArg l).getD 587 ∧
    (NewConfig (l.map Setter.toOption)).1.Username
      = (lastArg Setter.usernameArg l).getD "" ∧
    (NewConfig (l.map Setter.toOption)).1.Password
      = (lastArg Setter.passwordArg l).getD "" ∧
    (NewConfig (l.map Setter.toOption)).1.From
      = (lastArg Setter.senderArg l).getD "" ∧
    (NewConfig (l.map Setter.toOption)).1.FromName
      = (lastArg Setter.fromNameArg l).getD "" ∧
    (NewConfig (l.map Setter.toOption)).1.InsecureSkipVerify
      = (lastArg Setter.insecureSkipVerifyArg l).getD false ∧
    (NewConfig (l.map Setter.toOption)).1.Timeout
      = (lastArg Setter.timeoutArg l).getD 30000000000 ∧
    (NewConfig (l.map Setter.toOption)).1.KeepAlive
      = (lastArg Setter.keepAliveArg l).getD false ∧
    (NewConfig (l.map Setter.toOption)).1.AuthMethod
      = (lastArg Setter.authMethodArg l).getD "PLAIN" := by
  refine ⟨?_, ?_, ?_, ?_, ?_, ?_, ?_, ?_, ?_, ?_⟩
  · exact applyOptions_field Config.Host Setter.hostArg
      (fun o cfg => by cases o <;> rfl) l defaultConfig
  · exact applyOptions_field Config.Port Setter.portArg
      (fun o cfg => by cases o <;> rfl) l defaultConfig
  · exact applyOptions_field Config.Username Setter.usernameArg
      (fun o cfg => by cases o <;> rfl) l defaultConfig
  · exact applyOptions_field Config.Password Setter.passwordArg
      (fun o cfg => by cases o <;> rfl) l defaultConfig
  · exact applyOptions_field Config.From Setter.senderArg
      (fun o cfg => by cases o <;> rfl) l defaultConfig
  · exact applyOptions_field Config.FromName Setter.fromNameArg
      (fun o cfg => by cases o <;> rfl) l defaultConfig
  · exact applyOptions_field Config.InsecureSkipVerify Setter.insecureSkipVerifyArg
      (fun o cfg => by cases o <;> rfl) l defaultConfig
  · exact applyOptions_field Config.Timeout Setter.timeoutArg
      (fun o cfg => by cases o <;> rfl) l defaultConfig
  · exact applyOptions_field Config.KeepAlive Setter.keepAliveArg
      (fun o cfg => by cases o <;> rfl) l defaultConfig
  · exact applyOptions_field Config.AuthMethod Setter.authMethodArg
      (fun o cfg => by cases o <;> rfl) l defaultConfig

/-- C6: for every list of option functions, the record NewConfig returns is
the left fold of the options over the default record; so two WithHost options
in a row leave the Host of the second. -/
theorem NewConfig_is_fold (options : List (Config → Config)) :
    (NewConfig options).1 = foldOptions options ∧
    ∀ a b : String, (NewConfig [WithHost a, WithHost b]).1.Host = b :=
  ⟨applyOptions_eq_foldl options defaultConfig, fun _ _ => rfl⟩

/-- C7: for every list of options NewConfig returns a nil error next to the
record; it does so too when the record it built has an empty Username or an
empty Password, as with no option at all or with WithUsername alone. -/
theorem NewConfig_error_nil (options : List (Config → Config)) :
    (NewConfig options).2 = none ∧
    ((NewConfig []).1.Username = "" ∧ (NewConfig []).2 = none) ∧
    ((NewConfig [WithUsername "username"]).1.Password = "" ∧
      (NewConfig [WithUsername "username"]).2 = none) :=
  ⟨rfl, ⟨rfl, rfl⟩, ⟨rfl, rfl⟩⟩

/-- C8, evaluated on the code: on the three failing cases of
`TestNewConfig_Validation` and of the claim, NewConfig returns a nil error
although Validate rejects the record it built; only when both credentials are
set do the two agree. -/
theorem NewConfig_does_not_validate :
    ((NewConfig [WithPassword "password"]).2 = none ∧
      Validate (NewConfig [WithPassword "password"]).1 = some "username is empty") ∧
    ((NewConfig [WithUsername "username"]).2 = none ∧
      Validate (NewConfig [WithUsername "username"]).1 = some "password is empty") ∧
    ((NewConfig []).2 = none ∧
      Validate (NewConfig []).1 = some "username is empty") ∧
    ((NewConfig [WithUsername "username", WithPassword "password"]).2 = none ∧
      Validate (NewConfig [WithUsername "username", WithPassword "password"]).1 = none) := by
  refine ⟨⟨rfl, ?_⟩, ⟨rfl, ?_⟩, ⟨rfl, ?_⟩, ⟨rfl, ?_⟩⟩ <;> decide

/-! ## The setters -/

/-- C9: each of the ten setters, on any record and with any argument, returns
the record whose targeted field is the argument as given and whose nine other
fields are those of the record it was applied to. -/
theorem With_sets_own_field_only (cfg : Config) (s : String) (n : Int) (b : Bool) :
    WithHost s cfg = Config.mk s cfg.Port cfg.Username cfg.Password cfg.From
      cfg.FromName cfg.InsecureSkipVerify cfg.Timeout cfg.KeepAlive cfg.AuthMethod ∧
    WithPort n cfg = Config.mk cfg.Host n cfg.Username cfg.Password cfg.From
      cfg.FromName cfg.InsecureSkipVerify cfg.Timeout cfg.KeepAlive cfg.AuthMethod ∧
    WithUsername s cfg = Config.mk cfg.Host cfg.Port s cfg.Password cfg.From
      cfg.FromName cfg.InsecureSkipVerify cfg.Timeout cfg.KeepAlive cfg.AuthMethod ∧
    WithPassword s cfg = Config.mk cfg.Host cfg.Port cfg.Username s cfg.From
      cfg.FromName cfg.InsecureSkipVerify cfg.Timeout cfg.KeepAlive cfg.AuthMethod ∧
    WithFrom s cfg = Config.mk cfg.Host cfg.Port cfg.Username cfg.Password s
      cfg.FromName cfg.InsecureSkipVerify cfg.Timeout cfg.KeepAlive cfg.AuthMethod ∧
    WithFromName s cfg = Config.mk cfg.Host cfg.Port cfg.Username cfg.Password cfg.From
      s cfg.InsecureSkipVerify cfg.Timeout cfg.KeepAlive cfg.AuthMethod ∧
    WithInsecureSkipVerify b cfg = Config.mk cfg.Host cfg.Port cfg.Username cfg.Password
      cfg.From cfg.FromName b cfg.Timeout cfg.KeepAlive cfg.AuthMethod ∧
    WithTimeout n cfg = Config.mk cfg.Host cfg.Port cfg.Username cfg.Password cfg.From
      cfg.FromName cfg.InsecureSkipVerify n cfg.KeepAlive cfg.AuthMethod ∧
    WithKeepAlive b cfg = Config.mk cfg.Host cfg.Port cfg.Username cfg.Password cfg.From
      cfg.FromName cfg.InsecureSkipVerify cfg.Timeout b cfg.AuthMethod ∧
    WithAuthMethod s cfg = Config.mk cfg.Host cfg.Port cfg.Username cfg.Password cfg.From
      cfg.FromName cfg.InsecureSkipVerify cfg.Timeout cfg.KeepAlive s :=
  ⟨rfl, rfl, rfl, rfl, rfl, rfl, rfl, rfl, rfl, rfl⟩

/-- C10: NewConfig called with the ten setters, one per field and in the
order of the struct, returns the record made of the ten arguments: no
default is left. -/
theorem NewConfig_all_options (host : String) (port : Int)
    (username password sender fromName : String) (insecureSkipVerify : Bool)
    (timeout : Int) (keepAlive : Bool) (authMethod : String) :
    (NewConfig [WithHost host, WithPort port, WithUsername username,
        WithPassword password, WithFrom sender, WithFromName fromName,
        WithInsecureSkipVerify insecureSkipVerify, WithTimeout timeout,
        WithKeepAlive keepAlive, WithAuthMethod authMethod]).1 =
      Config.mk host port username password sender fromName insecureSkipVerify
        timeout keepAlive authMethod :=
  rfl

/-! ## Validate after NewConfig -/

/-- A field no call in the list targets has no last argument. -/
theorem lastArg_eq_none {α : Type} (sel : Setter → Option α) (l : List Setter)
    (h : ∀ o ∈ l, sel o = none) : lastArg sel l = none := by
  have hnil : l.filterMap sel = [] := List.filterMap_eq_nil_iff.mpr h
  simp [lastArg, hnil]

/-- The Username NewConfig leaves after a list of setter calls. -/
theorem NewConfig_Username (l : List Setter) :
    (NewConfig (l.map Setter.toOption)).1.Username
      = (lastArg Setter.usernameArg l).getD "" :=
  applyOptions_field Config.Username Setter.usernameArg
    (fun o cfg => by cases o <;> rfl) l defaultConfig

/-- The Password NewConfig leaves after a list of setter calls. -/
theorem NewConfig_Password (l : List Setter) :
    (NewConfig (l.map Setter.toOption)).1.Password
      = (lastArg Setter.passwordArg l).getD "" :=
  applyOptions_field Config.Password Setter.passwordArg
    (fun o cfg => by cases o <;> rfl) l defaultConfig

/-- C11: for every list of setter calls without a WithUsername, Validate on
the record NewConfig returns gives the error "username is empty". -/
theorem Validate_NewConfig_no_username (l : List Setter)
    (h : ∀ v : String, Setter.username v ∉ l) :
    Validate (NewConfig (l.map Setter.toOption)).1 = some "username is empty" := by
  have hsel : ∀ o ∈ l, Setter.usernameArg o = none := by
    intro o ho
    cases o with
    | username v => exact absurd ho (h v)
    | _ => rfl
  have hu : (NewConfig (l.map Setter.toOption)).1.Username = "" := by
    rw [NewConfig_Username, lastArg_eq_none _ _ hsel]
    rfl
  simp [Validate, errors.New, hu]

/-- The test case "Missing username": WithPassword("password") alone. -/
theorem Validate_NewConfig_no_username_witness :
    (∀ v : String, Setter.username v ∉ [Setter.password "password"]) ∧
    Validate (NewConfig ([Setter.password "password"].map Setter.toOption)).1
      = some "username is empty" :=
  ⟨by simp, Validate_NewConfig_no_username [Setter.password "password"] (by simp)⟩

/-- C12: for every non-empty u and every list of setter calls whose last
WithUsername has argument u and which holds no WithPassword, Validate on the
record NewConfig returns gives the error "password is empty". -/
theorem Validate_NewConfig_no_password (u : String) (l : List Setter)
    (hu : u ≠ "") (hlast : lastArg Setter.usernameArg l = some u)
    (hp : ∀ v : String, Setter.password v ∉ l) :
    Validate (NewConfig (l.map Setter.toOption)).1 = some "password is empty" := by
  have hsel : ∀ o ∈ l, Setter.passwordArg o = none := by
    intro o ho
    cases o with
    | password v => exact absurd ho (hp v)
    | _ => rfl
  have hname : (NewConfig (l.map Setter.toOption)).1.Username = u := by
    rw [NewConfig_Username, hlast]
    rfl
  have hpass : (NewConfig (l.map Setter.toOption)).1.Password = "" := by
    rw [NewConfig_Password, lastArg_eq_none _ _ hsel]
    rfl
  simp [Validate, errors.New, hname, hpass, hu]

/-- Two WithUsername calls, the last one "username", around a WithHost. -/
theorem Validate_NewConfig_no_password_witness :
    "username" ≠ "" ∧
    lastArg Setter.usernameArg
      [Setter.username "", Setter.host "mail.example.com", Setter.username "username"]
      = some "username" ∧
    (∀ v : String, Setter.password v ∉
      [Setter.username "", Setter.host "mail.example.com", Setter.username "username"]) ∧
    Validate (NewConfig
      ([Setter.username "", Setter.host "mail.example.com",
        Setter.username "username"].map Setter.toOption)).1
      = some "password is empty" :=
  ⟨by decide, by decide, by simp,
    Validate_NewConfig_no_password "username"
      [Setter.username "", Setter.host "mail.example.com", Setter.username "username"]
      (by decide) (by decide) (by simp)⟩

/-- C15: two records with the same Username and the same Password get the
same result from Validate, however their eight other fields differ. -/
theorem Validate_depends_on_credentials_only (c1 c2 : Config)
    (hu : c1.Username = c2.Username) (hp : c1.Password = c2.Password) :
    Validate c1 = Validate c2 := by
  simp [Validate, hu, hp]

/-- Two records that share the credentials "user" and "" and differ in all
eight other fields. -/
theorem Validate_depends_on_credentials_only_witness :
    (Config.mk "a" 25 "user" "" "x" "X" false 1 false "PLAIN").Username
      = (Config.mk "b" (-1) "user" "" "y" "Y" true 2 true "LOGIN").Username ∧
    (Config.mk "a" 25 "user" "" "x" "X" false 1 false "PLAIN").Password
      = (Config.mk "b" (-1) "user" "" "y" "Y" true 2 true "LOGIN").Password ∧
    Validate (Config.mk "a" 25 "user" "" "x" "X" false 1 false "PLAIN")
      = Validate (Config.mk "b" (-1) "user" "" "y" "Y" true 2 true "LOGIN") :=
  ⟨rfl, rfl,
    Validate_depends_on_credentials_only
      (Config.mk "a" 25 "user" "" "x" "X" false 1 false "PLAIN")
      (Config.mk "b" (-1) "user" "" "y" "Y" true 2 true "LOGIN") rfl rfl⟩

/-- C13: a call of Validate leaves every field of the record as it was, and
any number of calls in a row on the same record leave the record unchanged
and all return the result of the first call. -/
theorem Validate_repeatable (c : Config) (n : Nat) :
    (Validate.call c).1 = c ∧
    (Validate.calls n c).1 = c ∧
    (Validate.calls n c).2 = List.replicate n (Validate c) ∧
    ∀ err ∈ (Validate.calls n c).2, err = Validate c := by
  have key : (Validate.calls n c).1 = c ∧
      (Validate.calls n c).2 = List.replicate n (Validate c) := by
    induction n with
    | zero => exact ⟨rfl, rfl⟩
    | succ k ih =>
      obtain ⟨ih1, ih2⟩ := ih
      constructor
      · simpa [Validate.calls, Validate.call] using ih1
      · simp [Validate.calls, Validate.call, ih2, List.replicate_succ]
  refine ⟨rfl, key.1, key.2, ?_⟩
  intro err herr
  rw [key.2] at herr
  exact List.eq_of_mem_replicate herr

/-- C14: on every record, two setter calls that target different fields give
the same record in either order, applied directly or through the loop of
NewConfig; and a setter call applied twice gives the same record as applied
once. -/
theorem setters_commute (cfg : Config) (o1 o2 : Setter) :
    (o1.target ≠ o2.target →
      Setter.toOption o2 (Setter.toOption o1 cfg)
        = Setter.toOption o1 (Setter.toOption o2 cfg) ∧
      applyOptions cfg [Setter.toOption o1, Setter.toOption o2]
        = applyOptions cfg [Setter.toOption o2, Setter.toOption o1] ∧
      (NewConfig [Setter.toOption o1, Setter.toOption o2]).1
        = (NewConfig [Setter.toOption o2, Setter.toOption o1]).1) ∧
    Setter.toOption o1 (Setter.toOption o1 cfg) = Setter.toOption o1 cfg ∧
    applyOptions cfg [Setter.toOption o1, Setter.toOption o1]
      = applyOptions cfg [Setter.toOption o1] := by
  have idem : Setter.toOption o1 (Setter.toOption o1 cfg) = Setter.toOption o1 cfg := by
    cases o1 <;> rfl
  refine ⟨fun h => ?_, idem, idem⟩
  have comm : ∀ c : Config, Setter.toOption o2 (Setter.toOption o1 c)
      = Setter.toOption o1 (Setter.toOption o2 c) := by
    intro c
    cases o1 <;> cases o2 <;> first | rfl | exact absurd rfl h
  exact ⟨comm cfg, comm cfg, comm defaultConfig⟩

/-- WithPort(465) and WithKeepAlive(true) on the default record. -/
theorem setters_commute_witness :
    (Setter.port 465).target ≠ (Setter.keepAlive true).target ∧
    (Setter.toOption (Setter.keepAlive true) (Setter.toOption (Setter.port 465) defaultConfig)
      = Setter.toOption (Setter.port 465)
          (Setter.toOption (Setter.keepAlive true) defaultConfig) ∧
    applyOptions defaultConfig
        [Setter.toOption (Setter.port 465), Setter.toOption (Setter.keepAlive true)]
      = applyOptions defaultConfig
        [Setter.toOption (Setter.keepAlive true), Setter.toOption (Setter.port 465)] ∧
    (NewConfig [Setter.toOption (Setter.port 465), Setter.toOption (Setter.keepAlive true)]).1
      = (NewConfig
          [Setter.toOption (Setter.keepAlive true), Setter.toOption (Setter.port 465)]).1) ∧
    (Setter.toOption (Setter.port 465) (Setter.toOption (Setter.port 465) defaultConfig)
      = Setter.toOption (Setter.port 465) defaultConfig ∧
    applyOptions defaultConfig
        [Setter.toOption (Setter.port 465), Setter.toOption (Setter.port 465)]
      = applyOptions defaultConfig [Setter.toOption (Setter.port 465)]) :=
  ⟨by decide,
    (setters_commute defaultConfig (Setter.port 465) (Setter.keepAlive true)).1 (by decide),
    (setters_commute defaultConfig (Setter.port 465) (Setter.keepAlive true)).2⟩

end gomail
